import Mathlib

/-!
Shallow embedding of `src/main.py` (Kraken crypto price tracker).

The program polls the Kraken public API for spot prices and writes them into
a spreadsheet.  The embedding below translates, function by function:

* the base-asset alias table `BASE_ALIASES`;
* `KrakenPairsCache.refresh_if_needed` (cache of the AssetPairs catalog),
  with the HTTP/JSON response made an explicit input of type `PairsResponse`;
* `KrakenPairsCache.find_pair` (ordered fallback lookup);
* `get_kraken_last_price` (ticker fetch, response made explicit as
  `TickerResponse`);
* `update_sheet_once` (one Sheet Updater invocation), with worksheet reads,
  staged cells, price fetches and batch writes recorded in a `SheetTrace`;
* the `main` polling loop, as a step-indexed run `main_run`.

Python dicts are modelled as association lists with dict update semantics
(`dictInsert`: overwrite in place, append new keys at the end); `dict.get` /
`in` become `List.lookup`.  Exceptions become `Except` / an `Option String`
error component.  `float(...)` on the price string is modelled by
`parsePyFloat` on finite decimal literals.
-/

/-- Python `str.upper()` (character-wise uppercasing; the program only ever
handles ASCII symbols and codes). -/
def pyUpper (s : String) : String :=
  ⟨s.toList.map Char.toUpper⟩

/-- Python `str.strip()`: drop leading and trailing whitespace. -/
def pyStrip (s : String) : String :=
  ⟨((s.toList.dropWhile Char.isWhitespace).reverse.dropWhile
      Char.isWhitespace).reverse⟩

/-- Python `str.replace(c, "")` for a one-character pattern `c`: delete every
occurrence of `c` from the string. -/
def pyReplaceDel (c : Char) (s : String) : String :=
  ⟨s.toList.filter (fun a => a ≠ c)⟩

/-- Default of env var `ASSET_PAIRS_REFRESH_SECS` in `src/main.py`. -/
def ASSET_PAIRS_REFRESH_SECS : Nat := 600

/-- Default of env var `QUOTE_CCY` in `src/main.py` (already uppercased). -/
def QUOTE_CCY : String := "USD"

/-- The static base-asset alias table `BASE_ALIASES` of `src/main.py`. -/
def BASE_ALIASES : List (String × String) :=
  [("BTC", "XBT"), ("XBT", "XBT"), ("DOGE", "XDG"), ("XDG", "XDG"),
   ("BITCOIN", "XBT"), ("ETHEREUM", "ETH"), ("ETH", "ETH"), ("ADA", "ADA"),
   ("CARDANO", "ADA"), ("XRP", "XRP"), ("RIPPLE", "XRP"), ("SOL", "SOL"),
   ("SOLANA", "SOL"), ("LTC", "LTC"), ("LITECOIN", "LTC"), ("BCH", "BCH"),
   ("BITCOIN CASH", "BCH")]

/-- `meta.get("base", "").replace("X", "").replace("Z", "")` of
`src/main.py:81-82`: Python `str.replace` removes every occurrence of the
pattern, not only a leading one. -/
def strip_code (s : String) : String :=
  pyReplaceDel 'Z' (pyReplaceDel 'X' s)

/-- Python dict assignment `m[k] = v` on an association list: overwrite the
existing entry in place, otherwise append at the end (dict insertion order). -/
def dictInsert (m : List ((String × String) × String))
    (k : String × String) (v : String) : List ((String × String) × String) :=
  if m.any (fun p => p.1 == k) then
    m.map (fun p => if p.1 == k then (k, v) else p)
  else
    m ++ [(k, v)]

/-- One entry of the AssetPairs catalog: `(pair_name, base, quote)`, i.e. a
key of `data["result"]` together with its `base` and `quote` metadata fields
(a missing field is the empty string, as with `meta.get("base", "")`). -/
abbrev CatalogEntry := String × String × String

/-- The loop of `src/main.py:79-84` building the fresh
`pairs_by_base_quote` mapping from the catalog. -/
def buildMapping (entries : List CatalogEntry) :
    List ((String × String) × String) :=
  entries.foldl
    (fun m e =>
      let base := strip_code e.2.1
      let quote := strip_code e.2.2
      if base ≠ "" ∧ quote ≠ "" then dictInsert m (base, quote) e.1 else m)
    []

/-- State of a `KrakenPairsCache` object:
`_pairs_by_base_quote` and `_last_refresh`. -/
structure CacheState where
  pairs : List ((String × String) × String)
  lastRefresh : Nat
deriving DecidableEq

/-- `KrakenPairsCache.__init__`: empty mapping, last refresh 0. -/
def CacheState.init : CacheState := ⟨[], 0⟩

/-- The AssetPairs HTTP exchange, made explicit: either the request fails
(`requests` exception / `raise_for_status`), or a JSON body arrives with an
`error` list and an optional `result` object (missing key `result` = `none`). -/
inductive PairsResponse where
  | httpFailure (msg : String)
  | body (error : List String) (result : Option (List CatalogEntry))
deriving DecidableEq

/-- `KrakenPairsCache.refresh_if_needed` of `src/main.py:67-87`.  Returns the
cache state as observable after the call together with the exception raised,
if any: every `raise` happens before the assignment to
`self._pairs_by_base_quote`, so on failure the state is the old one. -/
def refresh_if_needed (st : CacheState) (now : Nat) (resp : PairsResponse) :
    CacheState × Option String :=
  if now - st.lastRefresh < ASSET_PAIRS_REFRESH_SECS ∧ st.pairs ≠ [] then
    (st, none)
  else
    match resp with
    | .httpFailure msg => (st, some msg)
    | .body err result =>
      if err ≠ [] then (st, some "Kraken AssetPairs error")
      else
        match result with
        | none => (st, some "KeyError: result")
        | some entries => (⟨buildMapping entries, now⟩, none)

/-- `KrakenPairsCache.find_pair` of `src/main.py:89-103`: alias-normalise the
base, uppercase the quote, then return the first hit among the exact key and
the ordered fallback key variants. -/
def find_pair (pairs : List ((String × String) × String))
    (base_input quote : String) : Option String :=
  let base_raw := pyStrip (pyUpper base_input)
  let base_norm := (BASE_ALIASES.lookup base_raw).getD base_raw
  let quote_norm := pyStrip (pyUpper quote)
  match pairs.lookup (base_norm, quote_norm) with
  | some v => some v
  | none =>
    [(base_norm, quote_norm),
     (pyReplaceDel 'X' base_norm, pyReplaceDel 'Z' quote_norm),
     (base_raw, quote_norm)].findSome?
      (fun k => pairs.lookup k)

/-- Digit characters to the natural number they spell. -/
def digitsToNat (cs : List Char) : Nat :=
  cs.foldl (fun a c => a * 10 + (c.toNat - 48)) 0

/-- Every character is a decimal digit. -/
def allDigits (cs : List Char) : Bool :=
  cs.all (fun c => c.isDigit)

/-- Exponent part of a float literal: empty, or `e`/`E` followed by an
optionally signed non-empty digit string. -/
def parseExpPart (cs : List Char) : Option Int :=
  match cs with
  | [] => some 0
  | c :: rest =>
    if c = 'e' ∨ c = 'E' then
      match rest with
      | '+' :: ds => if ds ≠ [] ∧ allDigits ds then some (digitsToNat ds) else none
      | '-' :: ds => if ds ≠ [] ∧ allDigits ds then some (-(digitsToNat ds : Int)) else none
      | ds => if ds ≠ [] ∧ allDigits ds then some (digitsToNat ds) else none
    else none

/-- Python `float(s)` restricted to finite decimal literals (optional sign,
digits with an optional decimal point — at least one digit — and an optional
exponent), returning the exact rational value; any other string raises
`ValueError`, modelled as `none`.  (`inf`/`nan`/underscores are out of scope:
the program only feeds price strings returned by the provider.) -/
def parsePyFloat (s : String) : Option Rat :=
  let cs := (pyStrip s).toList
  let signRest : Int × List Char :=
    match cs with
    | '+' :: r => (1, r)
    | '-' :: r => (-1, r)
    | r => (1, r)
  let mantExp := signRest.2.span (fun c => c != 'e' && c != 'E')
  let ipf := mantExp.1.span (fun c => c != '.')
  let fracPart : Option (List Char) :=
    match ipf.2 with
    | [] => some []
    | '.' :: f => some f
    | _ => none
  match fracPart with
  | none => none
  | some f =>
    if (ipf.1 ≠ [] ∨ f ≠ []) ∧ allDigits ipf.1 ∧ allDigits f then
      match parseExpPart mantExp.2 with
      | none => none
      | some e =>
        let numInt : Int :=
          signRest.1 * ((digitsToNat ipf.1) * 10 ^ f.length + digitsToNat f)
        let q : Rat := (numInt : Rat) / (10 : Rat) ^ f.length
        some (if 0 ≤ e then q * (10 : Rat) ^ e.toNat else q / (10 : Rat) ^ (-e).toNat)
    else none

/-- The Ticker HTTP exchange, made explicit: either the request fails, or a
JSON body arrives with an `error` list and an optional `result` object.  Each
`result` entry is `(canonical pair key, "c" field)` where the `"c"` field is
`none` when the key `"c"` is missing and otherwise the list of strings under
it (`["last trade price", "lot volume"]` for a well-formed response). -/
inductive TickerResponse where
  | httpFailure (msg : String)
  | body (error : List String) (result : Option (List (String × Option (List String))))
deriving DecidableEq

/-- `get_kraken_last_price` of `src/main.py:108-119`: reject provider errors,
take the FIRST entry of `result` in iteration order (`next(iter(result))` —
the key is never compared to anything), read `["c"][0]` and parse it as a
float.  Every Python exception (`StopIteration`, `KeyError`, `IndexError`,
`ValueError`, HTTP errors) is an `Except.error`. -/
def get_kraken_last_price (resp : TickerResponse) : Except String Rat :=
  match resp with
  | .httpFailure msg => .error msg
  | .body err result =>
    if err ≠ [] then .error "Kraken Ticker error"
    else
      match result with
      | none => .error "KeyError: result"
      | some entries =>
        match entries with
        | [] => .error "StopIteration"
        | (_, info) :: _ =>
          match info with
          | none => .error "KeyError: c"
          | some cs =>
            match cs with
            | [] => .error "IndexError: list index out of range"
            | s :: _ =>
              match parsePyFloat s with
              | none => .error "ValueError: could not convert string to float"
              | some q => .ok q

/-- Value staged into an output cell: a numeric price, the `"N/A"` sentinel,
or the `"ERR"` sentinel. -/
inductive CellValue where
  | num (q : Rat)
  | na
  | err
deriving DecidableEq

/-- `gspread.Cell(row=..., col=..., value=...)`. -/
structure Cell where
  row : Nat
  col : Nat
  value : CellValue
deriving DecidableEq

/-- The per-row loop of `src/main.py:137-153`, starting at worksheet row
`row`: skip blank symbols; stage `"N/A"` when no pair is found (without
fetching); otherwise fetch the price, staging the number on success and
`"ERR"` when `get_kraken_last_price` raises.  Returns the staged cells and
the list of pair identifiers passed to the Ticker endpoint, both in
processing order. -/
def processRows (pairs : List ((String × String) × String)) (quote : String)
    (fetch : String → TickerResponse) (row : Nat) :
    List String → List Cell × List String
  | [] => ([], [])
  | raw :: rest =>
    if pyStrip raw = "" then processRows pairs quote fetch (row + 1) rest
    else
      match find_pair pairs (pyStrip raw) quote with
      | none =>
        (⟨row, 2, .na⟩ :: (processRows pairs quote fetch (row + 1) rest).1,
         (processRows pairs quote fetch (row + 1) rest).2)
      | some p =>
        match get_kraken_last_price (fetch p) with
        | .ok q =>
          (⟨row, 2, .num q⟩ :: (processRows pairs quote fetch (row + 1) rest).1,
           p :: (processRows pairs quote fetch (row + 1) rest).2)
        | .error _ =>
          (⟨row, 2, .err⟩ :: (processRows pairs quote fetch (row + 1) rest).1,
           p :: (processRows pairs quote fetch (row + 1) rest).2)

/-- Observable effects of one `update_sheet_once` call: how many times the
worksheet column was read (`ws.col_values`), the cells staged, the pair
identifiers sent to the Ticker endpoint, the payload of each
`ws.update_cells` batch-write call, and the exception propagated out of the
call, if any. -/
structure SheetTrace where
  reads : Nat
  cells : List Cell
  fetchCalls : List String
  writes : List (List Cell)
  failed : Option String
deriving DecidableEq

/-- `update_sheet_once` of `src/main.py:123-157`.  Inputs made explicit: the
worksheet's column A contents `col`, the pairs-cache state, the current time,
the AssetPairs response the provider would give, and the Ticker response per
requested pair.  Returns the cache state after the call and the effect
trace.  The column is read once; with at most a header nothing else happens;
a `refresh_if_needed` exception propagates (no cells, no write); otherwise
rows 2.. are processed and a single batch write is issued unless no cell was
staged. -/
def update_sheet_once (cache : CacheState) (now : Nat)
    (presp : PairsResponse) (fetch : String → TickerResponse)
    (quote : String) (col : List String) : CacheState × SheetTrace :=
  if col.length ≤ 1 then
    (cache, ⟨1, [], [], [], none⟩)
  else
    match refresh_if_needed cache now presp with
    | (st, some e) => (st, ⟨1, [], [], [], some e⟩)
    | (st, none) =>
      (st, ⟨1, (processRows st.pairs quote fetch 2 (col.drop 1)).1,
            (processRows st.pairs quote fetch 2 (col.drop 1)).2,
            if (processRows st.pairs quote fetch 2 (col.drop 1)).1 = [] then []
            else [(processRows st.pairs quote fetch 2 (col.drop 1)).1],
            none⟩)

/-- One iteration of the `while True` loop of `src/main.py:165-170`:
`iter` counts completed iterations, `sleeps` the `time.sleep` calls, `logs`
the messages recorded by `log.exception`.  `outcome` is what this
iteration's `update_sheet_once(sh)` call did: `.ok` or a raised exception.
The `except` clause swallows the exception and logs it; in both cases the
loop sleeps and goes round again. -/
structure LoopState where
  iter : Nat
  sleeps : Nat
  logs : List String
deriving DecidableEq

/-- One pass through the loop body of `main` (`src/main.py:165-170`). -/
def main_step (outcome : Except String Unit) (s : LoopState) : LoopState :=
  match outcome with
  | .ok _ => ⟨s.iter + 1, s.sleeps + 1, s.logs⟩
  | .error e => ⟨s.iter + 1, s.sleeps + 1, s.logs ++ [e]⟩

/-- The state of `main`'s loop after `n` passes, where `outcomes i` is what
the `i`-th `update_sheet_once` call does.  Total for every `n`: the loop has
no exit. -/
def main_run (outcomes : Nat → Except String Unit) : Nat → LoopState
  | 0 => ⟨0, 0, []⟩
  | n + 1 => main_step (outcomes n) (main_run outcomes n)

/-- Worksheet rows (numbered from `start`) whose raw content is non-blank
after stripping — the rows `update_sheet_once` stages a cell for. -/
def nonBlankRows (start : Nat) : List String → List Nat
  | [] => []
  | raw :: rest =>
    if pyStrip raw = "" then nonBlankRows (start + 1) rest
    else start :: nonBlankRows (start + 1) rest

/-- `log.exception` message recorded when an `update_sheet_once` call raises
inside `main`'s `try` (none on a clean iteration). -/
def excMsg : Except String Unit → Option String
  | .ok _ => none
  | .error e => some e

/-! ## Helper lemmas -/

/-- Each staged cell carries its source row and column B (2), and the staged
rows are exactly the non-blank input rows, in order. -/
theorem processRows_rows_cols (pairs : List ((String × String) × String))
    (quote : String) (fetch : String → TickerResponse) :
    ∀ (inputs : List String) (row : Nat),
      (processRows pairs quote fetch row inputs).1.map (fun c => (c.row, c.col))
        = (nonBlankRows row inputs).map (fun r => (r, 2)) := by
  intro inputs
  induction inputs with
  | nil => intro row; rfl
  | cons raw rest ih =>
    intro row
    simp only [processRows, nonBlankRows]
    by_cases h : pyStrip raw = ""
    · simp only [if_pos h]
      exact ih (row + 1)
    · simp only [if_neg h]
      cases hf : find_pair pairs (pyStrip raw) quote with
      | none => simp [ih (row + 1)]
      | some p =>
        cases hg : get_kraken_last_price (fetch p) with
        | ok q => simp [hg, ih (row + 1)]
        | error e => simp [hg, ih (row + 1)]

/-- An element of `dictInsert m k v` is an element of `m` or the new pair. -/
theorem mem_dictInsert {m : List ((String × String) × String)}
    {k : String × String} {v : String} {x : (String × String) × String}
    (hx : x ∈ dictInsert m k v) : x ∈ m ∨ x = (k, v) := by
  unfold dictInsert at hx
  split at hx
  · rcases List.mem_map.mp hx with ⟨p, hp, he⟩
    by_cases h : p.1 == k
    · right
      rw [if_pos h] at he
      exact he.symm
    · left
      rw [if_neg h] at he
      exact he ▸ hp
  · rcases List.mem_append.mp hx with h | h
    · exact .inl h
    · right
      simpa using h

/-- Every key of the mapping built from a catalog has a non-empty base and a
non-empty quote component: entries whose stripped codes are empty are
dropped by the `if base and quote` guard. -/
theorem buildMapping_keys (entries : List CatalogEntry) :
    ∀ kv ∈ buildMapping entries, kv.1.1 ≠ "" ∧ kv.1.2 ≠ "" := by
  have main : ∀ (es : List CatalogEntry) (m : List ((String × String) × String)),
      (∀ kv ∈ m, kv.1.1 ≠ "" ∧ kv.1.2 ≠ "") →
      ∀ kv ∈ es.foldl
        (fun m e =>
          if strip_code e.2.1 ≠ "" ∧ strip_code e.2.2 ≠ "" then
            dictInsert m (strip_code e.2.1, strip_code e.2.2) e.1
          else m) m,
        kv.1.1 ≠ "" ∧ kv.1.2 ≠ "" := by
    intro es
    induction es with
    | nil => intro m hm kv hkv; exact hm kv hkv
    | cons e rest ih =>
      intro m hm kv hkv
      simp only [List.foldl_cons] at hkv
      refine ih _ ?_ kv hkv
      intro kv' hkv'
      by_cases hg : strip_code e.2.1 ≠ "" ∧ strip_code e.2.2 ≠ ""
      · rw [if_pos hg] at hkv'
        rcases mem_dictInsert hkv' with h | h
        · exact hm kv' h
        · rw [h]
          exact hg
      · rw [if_neg hg] at hkv'
        exact hm kv' hkv'
  intro kv hkv
  exact main entries [] (by simp) kv hkv

/-! ## Claims -/

/-- C1: Round-trip through the catalog: refreshing with a catalog entry of
base `"XXBT"` and quote `"ZUSD"` mapped to some pair identifier makes
`find_pair "BTC" "USD"` return that pair identifier (it resolves, not
"not found"). -/
theorem C1_catalog_roundtrip (pair_name : String) :
    find_pair (buildMapping [(pair_name, "XXBT", "ZUSD")]) "BTC" "USD"
      = some pair_name := rfl

/-- C2: evaluation of the refresh key derivation at the failing input: the
code strips EVERY `X` and `Z` character, not only a leading disambiguation
prefix, so `"XXBT"` becomes `"BT"` (not `"XBT"` as the code's own comment
says), mid-string letters are lost (`"XTZ"` becomes `"T"`), and the cache
key for the `(base="XXBT", quote="ZUSD")` entry is `("BT", "USD")`. -/
theorem C2_strip_removes_all_X_Z :
    strip_code "XXBT" = "BT" ∧ strip_code "XXBT" ≠ "XBT"
  ∧ strip_code "XTZ" = "T"
  ∧ buildMapping [("XBTUSD", "XXBT", "ZUSD")] = [(("BT", "USD"), "XBTUSD")] := by
  decide

/-- C7: whenever the pair cache mapping is empty, `find_pair` returns
"not found" for every `(base, quote)` input, aliasing and fallback key
variants notwithstanding. -/
theorem C7_empty_cache_not_found (base quote : String) :
    find_pair [] base quote = none := rfl

/-- C4: every input row below the header with a non-blank symbol contributes
exactly one staged cell at its own row index in the output column (2), blank
rows contribute none; and on the worksheet
`[header, "BTC", "", "NOPE", "ETH"]` with quote `"USD"` and `"NOPE"`
unresolvable the staged cells are a numeric price at row 2, nothing at
row 3, `"N/A"` at row 4 (with no price fetch for that row), and a numeric
price at row 5. -/
theorem C4_one_cell_per_nonblank_row :
    (∀ (pairs : List ((String × String) × String)) (quote : String)
        (fetch : String → TickerResponse) (row : Nat) (inputs : List String),
        (processRows pairs quote fetch row inputs).1.map (fun c => (c.row, c.col))
          = (nonBlankRows row inputs).map (fun r => (r, 2)))
  ∧ (∃ q1 q2 : Rat,
      (update_sheet_once ⟨[], 0⟩ 0
          (.body [] (some [("XBTUSD", "XXBT", "ZUSD"), ("ETHUSD", "XETH", "ZUSD")]))
          (fun p => .body [] (some [(p, some ["50000.5"])]))
          "USD" ["Ticker", "BTC", "", "NOPE", "ETH"]).2.cells
        = [⟨2, 2, .num q1⟩, ⟨4, 2, .na⟩, ⟨5, 2, .num q2⟩]
      ∧ (update_sheet_once ⟨[], 0⟩ 0
          (.body [] (some [("XBTUSD", "XXBT", "ZUSD"), ("ETHUSD", "XETH", "ZUSD")]))
          (fun p => .body [] (some [(p, some ["50000.5"])]))
          "USD" ["Ticker", "BTC", "", "NOPE", "ETH"]).2.fetchCalls
        = ["XBTUSD", "ETHUSD"]) :=
  ⟨fun pairs quote fetch row inputs => processRows_rows_cols pairs quote fetch inputs row,
   ⟨_, _, rfl, rfl⟩⟩

/-- C3: cache refresh is atomic: whenever `refresh_if_needed` raises (HTTP
failure, provider-reported error, malformed response), the cache state
afterwards is exactly the prior state; when an actual (non-skipped) refresh
succeeds, the mapping is replaced wholesale by the one built from the
response's catalog. -/
theorem C3_refresh_atomic (st : CacheState) (now : Nat) (resp : PairsResponse) :
    (∀ e, (refresh_if_needed st now resp).2 = some e →
      (refresh_if_needed st now resp).1 = st)
  ∧ (∀ entries, resp = .body [] (some entries) →
      ¬(now - st.lastRefresh < ASSET_PAIRS_REFRESH_SECS ∧ st.pairs ≠ []) →
      (refresh_if_needed st now resp).1 = ⟨buildMapping entries, now⟩) := by
  constructor
  · intro e he
    by_cases hskip : now - st.lastRefresh < ASSET_PAIRS_REFRESH_SECS ∧ st.pairs ≠ []
    · simp [refresh_if_needed, hskip]
    · cases resp with
      | httpFailure m => simp [refresh_if_needed, hskip]
      | body err result =>
        by_cases herr : err = []
        · cases result with
          | none => simp [refresh_if_needed, hskip, herr]
          | some entries =>
            exfalso
            simp [refresh_if_needed, hskip, herr] at he
        · simp [refresh_if_needed, hskip, herr]
  · intro entries hresp hskip
    subst hresp
    simp [refresh_if_needed, hskip]

/-- Witness for C3 at concrete inputs: an HTTP failure at a populated cache
leaves it untouched, and a successful refresh from the empty cache installs
the freshly built mapping. -/
theorem C3_refresh_atomic_witness :
    (refresh_if_needed ⟨[(("BT", "USD"), "XBTUSD")], 100⟩ 1000
        (.httpFailure "requests.exceptions.Timeout")).1
      = ⟨[(("BT", "USD"), "XBTUSD")], 100⟩
  ∧ (refresh_if_needed ⟨[], 0⟩ 0 (.body [] (some [("ETHUSD", "XETH", "ZUSD")]))).1
      = ⟨buildMapping [("ETHUSD", "XETH", "ZUSD")], 0⟩ :=
  ⟨(C3_refresh_atomic _ _ _).1 "requests.exceptions.Timeout" rfl,
   (C3_refresh_atomic _ _ _).2 [("ETHUSD", "XETH", "ZUSD")] rfl (by decide)⟩

/-- C5: a ticker response whose body has a non-empty `error` field makes
`get_kraken_last_price` raise rather than return a number, and the
corresponding row's staged cell is the `"ERR"` sentinel, never a numeric
price. -/
theorem C5_error_field_yields_err (msgs : List String)
    (result : Option (List (String × Option (List String)))) (hm : msgs ≠ []) :
    (∃ e, get_kraken_last_price (.body msgs result) = .error e)
  ∧ (∀ (pairs : List ((String × String) × String)) (quote : String)
      (fetch : String → TickerResponse) (row : Nat) (raw p : String),
      pyStrip raw ≠ "" →
      find_pair pairs (pyStrip raw) quote = some p →
      fetch p = .body msgs result →
      (processRows pairs quote fetch row [raw]).1 = [⟨row, 2, .err⟩]) := by
  have herr : ∃ e, get_kraken_last_price (.body msgs result) = .error e :=
    ⟨"Kraken Ticker error", by simp [get_kraken_last_price, hm]⟩
  refine ⟨herr, ?_⟩
  intro pairs quote fetch row raw p hraw hfind hfetch
  obtain ⟨e, he⟩ := herr
  simp [processRows, hraw, hfind, hfetch, he]

/-- Witness for C5: the provider error `["EQuery:Unknown asset pair"]` makes
the fetch fail and stages `"ERR"` for the row. -/
theorem C5_error_field_yields_err_witness :
    (∃ e, get_kraken_last_price
        (.body ["EQuery:Unknown asset pair"] none) = .error e)
  ∧ (processRows [(("BT", "USD"), "XBTUSD")] "USD"
      (fun _ => .body ["EQuery:Unknown asset pair"] none) 2 ["BTC"]).1
      = [⟨2, 2, .err⟩] := by
  have h := C5_error_field_yields_err ["EQuery:Unknown asset pair"] none (by decide)
  exact ⟨h.1, h.2 _ _ _ 2 "BTC" "XBTUSD" (by decide) rfl rfl⟩

/-- C6: per Sheet Updater invocation the worksheet is read exactly once and
written at most once: the batch write is issued at most one time, its payload
is exactly the staged cells, no write happens when nothing was staged, and on
a non-aborted invocation the staged cells are exactly one column-2 cell per
non-blank input row. -/
theorem C6_one_read_at_most_one_write (cache : CacheState) (now : Nat)
    (presp : PairsResponse) (fetch : String → TickerResponse)
    (quote : String) (col : List String) :
    (update_sheet_once cache now presp fetch quote col).2.reads = 1
  ∧ (update_sheet_once cache now presp fetch quote col).2.writes
      = (if (update_sheet_once cache now presp fetch quote col).2.cells = [] then []
         else [(update_sheet_once cache now presp fetch quote col).2.cells])
  ∧ ((update_sheet_once cache now presp fetch quote col).2.failed = none →
      (update_sheet_once cache now presp fetch quote col).2.cells.map
          (fun c => (c.row, c.col))
        = (nonBlankRows 2 (col.drop 1)).map (fun r => (r, 2))) := by
  by_cases hl : col.length ≤ 1
  · refine ⟨by simp [update_sheet_once, hl], by simp [update_sheet_once, hl], ?_⟩
    intro _
    have hdrop : col.drop 1 = [] := List.drop_eq_nil_iff.mpr hl
    simp [update_sheet_once, hl, hdrop, nonBlankRows]
  · cases hr : refresh_if_needed cache now presp with
    | mk st res =>
      cases res with
      | some e =>
        refine ⟨?_, ?_, ?_⟩ <;> simp [update_sheet_once, hl, hr]
      | none =>
        refine ⟨?_, ?_, ?_⟩
        · simp [update_sheet_once, hl, hr]
        · simp [update_sheet_once, hl, hr]
        · intro _
          simp [update_sheet_once, hl, hr, processRows_rows_cols]

/-- Witness for C6 at a concrete non-aborted invocation. -/
theorem C6_one_read_at_most_one_write_witness :
    (update_sheet_once ⟨[], 0⟩ 0 (.body [] (some [("XBTUSD", "XXBT", "ZUSD")]))
        (fun p => .body [] (some [(p, some ["50000.5"])])) "USD"
        ["Ticker", "BTC", ""]).2.cells.map (fun c => (c.row, c.col))
      = (nonBlankRows 2 (["Ticker", "BTC", ""].drop 1)).map (fun r => (r, 2)) :=
  (C6_one_read_at_most_one_write _ _ _ _ _ _).2.2 rfl

/-- C8: the scheduler loop never terminates of its own accord: after any
number `n` of passes the loop is ready for pass `n + 1`, every pass completes
one iteration and one sleep whatever its outcome, and every exception an
iteration raises is swallowed and logged. -/
theorem C8_loop_runs_forever (outcomes : Nat → Except String Unit) (n : Nat) :
    main_run outcomes (n + 1) = main_step (outcomes n) (main_run outcomes n)
  ∧ (main_run outcomes n).iter = n
  ∧ (main_run outcomes n).sleeps = n
  ∧ (main_run outcomes n).logs
      = (List.range n).filterMap (fun i => excMsg (outcomes i)) := by
  refine ⟨rfl, ?_⟩
  induction n with
  | zero => exact ⟨rfl, rfl, rfl⟩
  | succ m ih =>
    refine ⟨?_, ?_, ?_⟩
    · show (main_step (outcomes m) (main_run outcomes m)).iter = m + 1
      cases outcomes m <;> simp [main_step, ih.1]
    · show (main_step (outcomes m) (main_run outcomes m)).sleeps = m + 1
      cases outcomes m <;> simp [main_step, ih.2.1]
    · show (main_step (outcomes m) (main_run outcomes m)).logs = _
      rw [List.range_succ, List.filterMap_append]
      cases h : outcomes m with
      | ok u => simp [main_step, excMsg, ih.2.2, h]
      | error e => simp [main_step, excMsg, ih.2.2, h]

/-- C9: invariant kept by every refresh: entries whose stripped base or quote
is empty are silently omitted, so starting from a cache whose keys all have
non-empty components, the cache after any `refresh_if_needed` call still
only contains keys with non-empty base and quote components. -/
theorem C9_refresh_keeps_keys_nonempty (st : CacheState) (now : Nat)
    (resp : PairsResponse)
    (hst : ∀ kv ∈ st.pairs, kv.1.1 ≠ "" ∧ kv.1.2 ≠ "") :
    ∀ kv ∈ (refresh_if_needed st now resp).1.pairs,
      kv.1.1 ≠ "" ∧ kv.1.2 ≠ "" := by
  by_cases hskip : now - st.lastRefresh < ASSET_PAIRS_REFRESH_SECS ∧ st.pairs ≠ []
  · simpa [refresh_if_needed, hskip] using hst
  · cases resp with
    | httpFailure m => simpa [refresh_if_needed, hskip] using hst
    | body err result =>
      by_cases herr : err = []
      · cases result with
        | none => simpa [refresh_if_needed, hskip, herr] using hst
        | some entries =>
          intro kv hkv
          have hpairs : (refresh_if_needed st now
              (.body err (some entries))).1.pairs = buildMapping entries := by
            simp [refresh_if_needed, hskip, herr]
          exact buildMapping_keys entries kv (hpairs ▸ hkv)
      · simpa [refresh_if_needed, hskip, herr] using hst

/-- Witness for C9: refreshing the empty cache with a catalog containing an
entry whose base strips to empty (`"XZ"`) keeps only the well-formed key. -/
theorem C9_refresh_keeps_keys_nonempty_witness :
    ("ETH" : String) ≠ "" ∧ ("USD" : String) ≠ "" :=
  C9_refresh_keeps_keys_nonempty ⟨[], 0⟩ 0
    (.body [] (some [("P1", "XZ", "ZUSD"), ("ETHUSD", "XETH", "ZUSD")]))
    (by simp) (("ETH", "USD"), "ETHUSD") (by decide)

/-- C10: past the error-field check, the price fetcher reads the FIRST entry
of the result object, ignoring that entry's key entirely (the key is never
compared to the requested or canonical pair identifier); an empty result
object or a non-numeric price string makes the call raise. -/
theorem C10_first_entry_key_ignored :
    (∀ (k k' : String) (info : Option (List String))
        (rest rest' : List (String × Option (List String))),
        get_kraken_last_price (.body [] (some ((k, info) :: rest)))
          = get_kraken_last_price (.body [] (some ((k', info) :: rest'))))
  ∧ (∃ e, get_kraken_last_price (.body [] (some [])) = .error e)
  ∧ (∀ (k : String) (rest : List (String × Option (List String)))
        (s : String) (tl : List String),
        parsePyFloat s = none →
        ∃ e, get_kraken_last_price (.body [] (some ((k, some (s :: tl)) :: rest)))
              = .error e) := by
  refine ⟨fun k k' info rest rest' => rfl, ⟨"StopIteration", rfl⟩, ?_⟩
  intro k rest s tl hs
  exact ⟨"ValueError: could not convert string to float",
    by simp [get_kraken_last_price, hs]⟩

/-- Witness for C10 at a non-numeric price string. -/
theorem C10_first_entry_key_ignored_witness :
    ∃ e, get_kraken_last_price
        (.body [] (some [("XXBTZUSD", some ["abc", "1.0"])])) = .error e :=
  C10_first_entry_key_ignored.2.2 "XXBTZUSD" [] "abc" ["1.0"] rfl
